import Mathlib

/-!
Shallow embedding of the authentication/authorization core of the
MrvTo/wetsite backend: the Express middleware in src/js/firebase-config.js
(token verification, role / e-mail-verification / subscription gates, the
rate-limiter configuration), the Firestore helpers in src/config/firebase.js,
and the route handlers in src/routes/auth.js and src/routes/user.js.

JavaScript conventions captured here:
  - an absent object field or a null value is modelled as `Option.none`;
  - JS truthiness on strings (both null/undefined and the empty string are
    falsy) is modelled by `jsFalsy`;
  - a thrown exception that a handler catches is modelled with `Except`;
  - Firestore / Mongoose collections are association lists.
-/

namespace Wetsite

/-- JS truthiness for an optional string: null/undefined and "" are falsy. -/
def jsFalsy : Option String → Bool
  | none => true
  | some s => s == ""

/-- Is the first list a prefix of the second (character-level
String.prototype.startsWith). -/
def charPrefix : List Char → List Char → Bool
  | [], _ => true
  | _ :: _, [] => false
  | c :: p, d :: s => c == d && charPrefix p s

/-- JS String.prototype.split(' '): split at every single space, keeping
empty components between consecutive spaces. -/
def splitSp (cs : List Char) : List (List Char) :=
  match cs with
  | [] => [[]]
  | c :: rest =>
    let r := splitSp rest
    if c == ' ' then [] :: r
    else
      match r with
      | [] => [[c]]
      | w :: ws => (c :: w) :: ws

/-- ASCII lower-casing of one character (JS toLowerCase on the ASCII
range the routes compare on). -/
def lowerChar (c : Char) : Char :=
  if 'A' ≤ c && c ≤ 'Z' then Char.ofNat (c.toNat + 32) else c

/-- JS String.prototype.toLowerCase. -/
def jsToLower (s : String) : String :=
  String.mk (s.data.map lowerChar)

def isSpaceChar (c : Char) : Bool :=
  c == ' ' || c == '\t' || c == '\n' || c == '\r'

/-- JS String.prototype.trim: strip whitespace from both ends. -/
def jsTrim (s : String) : String :=
  String.mk (((s.data.dropWhile isSpaceChar).reverse.dropWhile isSpaceChar).reverse)

/-- The uniform response shape sent by every handler:
HTTP status, the JSON success flag and the JSON message field. -/
structure Response where
  status : Nat
  success : Bool
  message : String
  deriving DecidableEq, Repr

/-- A subscription object stored on a profile document
(type: free, premium or enterprise; optional end date in epoch millis). -/
structure Subscription where
  type : String
  endDate : Option Int
  deriving DecidableEq, Repr

/-- The Firestore userProfiles document created by userHelpers.createUser
(src/config/firebase.js lines 154-166), plus the subscription field the
premium gate reads (schemaless Firestore: absent at creation). -/
structure ProfileDoc where
  email : String
  firstName : String
  lastName : String
  language : String
  prefTheme : String
  prefNotifEmail : Bool
  prefNotifUpdates : Bool
  role : String
  emailVerified : Bool
  subscription : Option Subscription
  deriving DecidableEq, Repr

/-- A Firebase Auth account record (identity provider side):
uid, e-mail, password, e-mail-verified flag. -/
structure Identity where
  uid : String
  email : String
  password : String
  emailVerified : Bool
  deriving DecidableEq, Repr

/-- An emailVerification collection document
(created in src/routes/auth.js lines 50-54). -/
structure VerifDoc where
  token : String
  email : String
  expiresAt : Int
  deriving DecidableEq, Repr

/-- The Firebase-side persistent state: auth accounts, userProfiles
documents keyed by uid, emailVerification documents keyed by uid. -/
structure FbState where
  identities : List Identity
  profiles : List (String × ProfileDoc)
  verifDocs : List (String × VerifDoc)
  deriving DecidableEq, Repr

/-- Outcome of auth.verifyIdToken: a decoded uid, or one of the
error codes the middleware distinguishes (auth/id-token-expired,
auth/argument-error / auth/invalid-id-token, anything else). -/
inductive VerifyResult where
  | ok (uid : String)
  | expired
  | invalid
  | err
  deriving DecidableEq, Repr

def VerifyResult.isOk : VerifyResult → Bool
  | .ok _ => true
  | _ => false

/-- The environment a middleware runs in: the delegated token verifier
plus the persistent Firebase state. -/
structure FbEnv where
  verify : String → VerifyResult
  st : FbState

/-- The object userHelpers.getUserById builds by spreading the Firestore
profile document over the auth record (src/config/firebase.js lines
186-191): uid from the auth record, email / emailVerified overridden by
the profile document when it exists, and the profile fields themselves. -/
structure MergedUser where
  uid : String
  email : String
  emailVerified : Bool
  profile : Option ProfileDoc
  deriving DecidableEq, Repr

/-- The JS object spread in getUserById: the later spread of the profile
document overrides email and emailVerified; spreading null adds nothing. -/
def mergeUser (a : Identity) (p : Option ProfileDoc) : MergedUser :=
  { uid := a.uid,
    email := match p with | some pd => pd.email | none => a.email,
    emailVerified := match p with | some pd => pd.emailVerified | none => a.emailVerified,
    profile := p }

def lookupProfile (st : FbState) (uid : String) : Option ProfileDoc :=
  (st.profiles.find? (fun p => p.1 == uid)).map (·.2)

/-- userHelpers.getUserById (src/config/firebase.js lines 179-195):
auth.getUser throws when the uid has no auth record (the surrounding
try/catch rethrows a plain Error); otherwise the profile document is
fetched (null when missing) and spread over the auth fields. The result
on the success path is always an object, never null. -/
def getUserById (env : FbEnv) (uid : String) : Except String (Option MergedUser) :=
  match env.st.identities.find? (fun a => a.uid == uid) with
  | none => .error "Failed to get user"
  | some a => .ok (some (mergeUser a (lookupProfile env.st uid)))

/-- Detects the result shape the dead `if (!user)` branch of
authenticateToken would need: a successful call returning null. -/
def isOkNone : Except String (Option MergedUser) → Bool
  | .ok none => true
  | _ => false

/-- Bearer-token extraction shared by authenticateToken and optionalAuth
(src/js/firebase-config.js lines 41-42 and 95-96):
authHeader && authHeader.startsWith(Bearer) then authHeader.split(space)[1]. -/
def extractToken (h : Option String) : Option String :=
  match h with
  | none => none
  | some s =>
    if charPrefix "Bearer ".data s.data then
      ((splitSp s.data).get? 1).map String.mk
    else none

/-- Result of an authentication middleware: pass control to the handler
with the attached req.user / req.uid, or answer with a status and message. -/
inductive AuthOutcome where
  | proceed (user : Option MergedUser) (uid : Option String)
  | respond (status : Nat) (message : String)
  deriving DecidableEq, Repr

def AuthOutcome.isProceed : AuthOutcome → Bool
  | .proceed _ _ => true
  | _ => false

/-- authenticateToken (src/js/firebase-config.js lines 39-90).
The `.ok none` branch transcribes the `if (!user)` guard at line 56;
getUserById never produces that shape (see the C3 analysis). A getUserById
throw is caught with no error code attached, so it lands on the final
500 branch. -/
def authenticateToken (env : FbEnv) (header : Option String) : AuthOutcome :=
  let token := extractToken header
  if jsFalsy token then .respond 401 "Access token required"
  else
    match token with
    | none => .respond 401 "Access token required"
    | some t =>
      match env.verify t with
      | .ok uid =>
        match getUserById env uid with
        | .error _ => .respond 500 "Authentication failed"
        | .ok none => .respond 401 "User not found"
        | .ok (some user) => .proceed (some user) (some uid)
      | .expired => .respond 401 "Token expired"
      | .invalid => .respond 401 "Invalid token"
      | .err => .respond 500 "Authentication failed"

/-- optionalAuth (src/js/firebase-config.js lines 93-116): no token means
null user and null uid; any thrown error (verification failure or a
getUserById throw) is caught and likewise resolves to null/null; on
success req.uid is decodedToken.uid || null, so an empty uid becomes null. -/
def optionalAuth (env : FbEnv) (header : Option String) : AuthOutcome :=
  let token := extractToken header
  if jsFalsy token then .proceed none none
  else
    match token with
    | none => .proceed none none
    | some t =>
      match env.verify t with
      | .ok uid =>
        match getUserById env uid with
        | .error _ => .proceed none none
        | .ok u => .proceed u (if uid == "" then none else some uid)
      | .expired => .proceed none none
      | .invalid => .proceed none none
      | .err => .proceed none none

/-- Result of an access-control gate: call next(), or halt with a
status, success flag, message and optional machine-readable code. -/
inductive GateResult where
  | next
  | halt (status : Nat) (success : Bool) (message : String) (code : Option String)
  deriving DecidableEq, Repr

/-- requireRole (src/js/firebase-config.js lines 139-162). req.user.role
reads the role of the spread profile document (undefined when the profile
is missing); the userRoles list is the singleton of that value, and the
gate passes iff some required role is included in it. -/
def requireRole (roles : List String) (user : Option MergedUser) : GateResult :=
  match user with
  | none => .halt 401 false "Authentication required" none
  | some u =>
    let userRole : Option String := u.profile.map (·.role)
    let hasRole := roles.any (fun r => userRole == some r)
    if hasRole then .next
    else .halt 403 false "Insufficient permissions" none

/-- requirePremium (src/js/firebase-config.js lines 168-193). isPremium
demands a subscription object, type premium or enterprise, and a truthy
endDate strictly in the future; a null/absent endDate falls to the
PREMIUM_REQUIRED branch because `subscription.endDate &&` is falsy. -/
def requirePremium (user : Option MergedUser) (now : Int) : GateResult :=
  match user with
  | none => .halt 401 false "Authentication required" none
  | some u =>
    let sub : Option Subscription :=
      match u.profile with
      | some p => p.subscription
      | none => none
    let isPremium :=
      match sub with
      | none => false
      | some s =>
        (s.type == "premium" || s.type == "enterprise") &&
        (match s.endDate with
         | none => false
         | some d => decide (now < d))
    if isPremium then .next
    else .halt 403 false "Premium subscription required" (some "PREMIUM_REQUIRED")

/-! ## The rate limiter (src/js/firebase-config.js lines 196-210)

sensitiveOperationLimiter configures the express-rate-limit dependency
with a window, a maximum and a key generator. The key generator is
repository code and is embedded below from the source. -/

/-- keyGenerator (src/js/firebase-config.js line 207):
req.ip + (req.uid || req.user?.uid || ''). `||` falls through on falsy
values, so both an absent uid and an empty-string uid defer to the next
alternative. -/
def rateLimitKey (ip : String) (reqUid : Option String) (reqUserUid : Option String) : String :=
  ip ++
    (match reqUid with
     | some u =>
       if u == "" then (match reqUserUid with | some v => v | none => "") else u
     | none => match reqUserUid with | some v => v | none => "")

/-- A per-key rate-limit window: its start time and the rolling count. -/
structure WindowRec where
  windowStart : Int
  count : Nat
  deriving DecidableEq, Repr

/-- Modelled from the spec: the rate-limiting engine is the
express-rate-limit package, an external dependency not under src/; the
repository only configures it (window, max, key). Section 4.3 of the spec
fixes its semantics: a counter increments per call, once the counter
exceeds maxAttempts within windowMs of the window start further calls
fail until the window elapses, after which the counter resets; every
attempt counts regardless of the guarded operation outcome (the model
takes no outcome input at all). -/
def limiterStep (maxAttempts : Nat) (windowMs : Int)
    (st : List (String × WindowRec)) (key : String) (now : Int) :
    List (String × WindowRec) × Bool :=
  match st.find? (fun p => p.1 == key) with
  | none =>
    ((key, ⟨now, 1⟩) :: st.filter (fun p => !(p.1 == key)), decide (1 ≤ maxAttempts))
  | some (_, w) =>
    if w.windowStart + windowMs ≤ now then
      ((key, ⟨now, 1⟩) :: st.filter (fun p => !(p.1 == key)), decide (1 ≤ maxAttempts))
    else
      ((key, ⟨w.windowStart, w.count + 1⟩) :: st.filter (fun p => !(p.1 == key)),
       decide (w.count + 1 ≤ maxAttempts))

/-- Runs a sequence of calls for one key through the limiter, collecting
the allow/deny verdicts. -/
def runLimiter (maxAttempts : Nat) (windowMs : Int) (key : String) :
    List (String × WindowRec) → List Int → List (String × WindowRec) × List Bool
  | st, [] => (st, [])
  | st, t :: ts =>
    let s1 := limiterStep maxAttempts windowMs st key t
    let s2 := runLimiter maxAttempts windowMs key s1.1 ts
    (s2.1, s1.2 :: s2.2)

/-- The budget sensitiveOperationLimiter is given on POST /register and
POST /login (src/routes/auth.js lines 13 and 112): 5 attempts. -/
def loginLimiterMax : Nat := 5

/-- The window given on POST /register and POST /login: 15 * 60 * 1000 ms. -/
def loginLimiterWindowMs : Int := 900000

/-! ## The Mongoose-model side of the routes

src/routes/auth.js and src/routes/user.js call a User model
(required from ../models/User) that is part of the repository but not
under src/. Its documents and query helpers are modelled from the spec;
the route handlers themselves are embedded from the source. -/

/-- A User model document: the profile fields of section 3 of the spec
(role, subscription, preferences, verification flag, timestamps elided)
together with the credential and token fields the auth routes read and
write. Preferences are an association list from key to an opaque value. -/
structure MUser where
  id : String
  email : String
  password : String
  firstName : String
  lastName : String
  role : String
  isEmailVerified : Bool
  emailVerificationToken : Option String
  emailVerificationExpires : Option Int
  passwordResetToken : Option String
  passwordResetExpires : Option Int
  preferences : List (String × String)
  subscriptionType : String
  subscriptionEndDate : Option Int
  deriving DecidableEq, Repr

/-- Modelled from the spec: User.findByVerificationToken (the User model
is not under src/). Section 4.4 VerifyEmail looks up the Verification
Token and fails if it is absent or past expiry, so the lookup matches a
user whose stored token equals the argument and whose expiry is strictly
in the future. -/
def findByVerificationToken (db : List MUser) (now : Int) (t : String) : Option MUser :=
  db.find? (fun u =>
    u.emailVerificationToken == some t &&
    (match u.emailVerificationExpires with
     | some e => decide (now < e)
     | none => false))

/-- Modelled from the spec: User.findByResetToken (the User model is not
under src/). Section 4.4 ResetPassword fails InvalidOrExpiredToken if the
token is unknown or expired, so the lookup matches a user whose stored
reset token equals the argument and whose expiry is strictly in the
future. -/
def findByResetToken (db : List MUser) (now : Int) (t : String) : Option MUser :=
  db.find? (fun u =>
    u.passwordResetToken == some t &&
    (match u.passwordResetExpires with
     | some e => decide (now < e)
     | none => false))

/-- Modelled from the spec: User.findOne on a lowercased e-mail (the User
model is not under src/); section 3 lists secondary lookup by e-mail. -/
def findOneByEmail (db : List MUser) (e : String) : Option MUser :=
  db.find? (fun u => u.email == e)

/-- Replaces the documents with the given id by the updated document
(a Mongoose save of a fetched document). -/
def saveUser (db : List MUser) (u : MUser) : List MUser :=
  db.map (fun v => if v.id == u.id then u else v)

/-- POST /verify-email (src/routes/auth.js lines 202-257): a falsy token
is a 400; an unknown or expired token is a 400; otherwise the verified
flag is set, the token and expiry fields are cleared (single use) and the
welcome e-mail failure is swallowed. -/
def verifyEmail (db : List MUser) (now : Int) (tok : Option String) :
    List MUser × Response :=
  if jsFalsy tok then (db, ⟨400, false, "Verification token is required"⟩)
  else
    match tok with
    | none => (db, ⟨400, false, "Verification token is required"⟩)
    | some t =>
      match findByVerificationToken db now t with
      | none => (db, ⟨400, false, "Invalid or expired verification token"⟩)
      | some u =>
        let u2 := { u with isEmailVerified := true,
                           emailVerificationToken := none,
                           emailVerificationExpires := none }
        (saveUser db u2, ⟨200, true, "Email verified successfully"⟩)

/-- POST /reset-password (src/routes/auth.js lines 362-412): missing
token or password is a 400; a password shorter than 8 is a 400 before any
token lookup; an unknown or expired token is a 400; otherwise the
password is replaced and the reset token, expiry and lockout fields are
cleared. -/
def resetPassword (db : List MUser) (now : Int) (tok pass : Option String) :
    List MUser × Response :=
  if jsFalsy tok || jsFalsy pass then
    (db, ⟨400, false, "Reset token and new password are required"⟩)
  else
    match tok, pass with
    | some t, some p =>
      if p.length < 8 then
        (db, ⟨400, false, "Password must be at least 8 characters long"⟩)
      else
        match findByResetToken db now t with
        | none => (db, ⟨400, false, "Invalid or expired reset token"⟩)
        | some u =>
          let u2 := { u with password := p,
                             passwordResetToken := none,
                             passwordResetExpires := none }
          (saveUser db u2, ⟨200, true, "Password reset successfully"⟩)
    | _, _ => (db, ⟨400, false, "Reset token and new password are required"⟩)

/-- POST /forgot-password (src/routes/auth.js lines 310-359): a missing
e-mail is a 400; an unknown e-mail answers the generic success message
without touching state; a known e-mail stores a fresh 1-hour reset token
and then sends the e-mail — a send failure is the one surfaced failure
(500), a successful send answers the same generic message. -/
def forgotPassword (db : List MUser) (now : Int) (newTok : String)
    (email : Option String) (sendOk : Bool) : List MUser × Response :=
  if jsFalsy email then (db, ⟨400, false, "Email is required"⟩)
  else
    match email with
    | none => (db, ⟨400, false, "Email is required"⟩)
    | some e =>
      match findOneByEmail db (jsToLower e) with
      | none =>
        (db, ⟨200, true,
          "If an account with that email exists, a password reset link has been sent"⟩)
      | some u =>
        let u2 := { u with passwordResetToken := some newTok,
                           passwordResetExpires := some (now + 3600000) }
        let db2 := saveUser db u2
        if sendOk then
          (db2, ⟨200, true,
            "If an account with that email exists, a password reset link has been sent"⟩)
        else (db2, ⟨500, false, "Failed to send password reset email"⟩)

/-! ## POST /register (src/routes/auth.js lines 13-109) -/

/-- The request body of POST /register; language defaults to en when
absent (destructuring default). -/
structure RegisterBody where
  email : Option String
  password : Option String
  firstName : Option String
  lastName : Option String
  language : Option String
  deriving DecidableEq, Repr

/-- userHelpers.getUserByEmail (src/config/firebase.js lines 198-215):
auth/user-not-found is caught and surfaces as null; otherwise the profile
document is spread over the auth record. -/
def getUserByEmail (st : FbState) (e : String) : Option MergedUser :=
  match st.identities.find? (fun a => a.email == e) with
  | none => none
  | some a => some (mergeUser a (lookupProfile st a.uid))

/-- The value userHelpers.createUser returns to the register handler
(src/config/firebase.js lines 168-172): uid and email from the auth
record spread with the caller userData — which carries neither a role
nor an isEmailVerified field. -/
structure CreatedUser where
  uid : String
  email : String
  firstName : String
  lastName : String
  language : String
  deriving DecidableEq, Repr

/-- An exception inside a route handler, distinguished the way the catch
blocks do: by error.name. -/
inductive JsError where
  | referenceError
  | validationError
  deriving DecidableEq, Repr

/-- The response block of POST /register (src/routes/auth.js lines
69-88) places the identifiers token and refreshToken in the response
object, but neither is defined in the handler or anywhere in the module
scope of src/routes/auth.js; evaluating the object literal therefore
throws a ReferenceError before res.status(201) can answer. -/
def registerSuccessBody : Except JsError Response := .error .referenceError

/-- POST /register (src/routes/auth.js lines 13-109). A falsy required
field is a 400; an existing account for the lowercased e-mail is a 409;
otherwise the auth account, the profile document (role user, unverified,
default preferences) and the 24-hour verification-token document are
created, the verification e-mail failure is swallowed, and the success
response block is evaluated — whose thrown ReferenceError is caught by
the handler: its name is not ValidationError, so the handler answers
500. newUid and newToken stand for the fresh uid and the generated
high-entropy token. -/
def register (st : FbState) (now : Int) (newUid newToken : String)
    (body : RegisterBody) : FbState × Response :=
  if jsFalsy body.email || jsFalsy body.password ||
     jsFalsy body.firstName || jsFalsy body.lastName then
    (st, ⟨400, false, "All fields are required"⟩)
  else
    match body.email, body.password, body.firstName, body.lastName with
    | some e, some pw, some fn, some ln =>
      let eLower := jsToLower e
      match getUserByEmail st eLower with
      | some _ => (st, ⟨409, false, "User with this email already exists"⟩)
      | none =>
        let lang := match body.language with | some l => l | none => "en"
        let doc : ProfileDoc :=
          { email := eLower, firstName := jsTrim fn, lastName := jsTrim ln,
            language := lang, prefTheme := "dark",
            prefNotifEmail := true, prefNotifUpdates := true,
            role := "user", emailVerified := false, subscription := none }
        let st2 : FbState :=
          { identities := ⟨newUid, eLower, pw, false⟩ :: st.identities,
            profiles := (newUid, doc) :: st.profiles,
            verifDocs := (newUid, ⟨newToken, eLower, now + 86400000⟩) :: st.verifDocs }
        match registerSuccessBody with
        | .ok r => (st2, r)
        | .error err =>
          if err = .validationError then (st2, ⟨400, false, "Validation failed"⟩)
          else (st2, ⟨500, false, "Registration failed. Please try again."⟩)
    | _, _, _, _ => (st, ⟨400, false, "All fields are required"⟩)

/-! ## PUT /profile (src/routes/user.js lines 45-140) -/

/-- The request body of PUT /profile: optional first/last name and an
optional preferences object (association list, insertion order). -/
structure UpdateBody where
  firstName : Option String
  lastName : Option String
  preferences : Option (List (String × String))
  deriving DecidableEq, Repr

/-- The preference allow-list (src/routes/user.js line 72). -/
def allowedPreferences : List String := ["language", "theme", "notifications"]

/-- The Object.keys(preferences).forEach filter (src/routes/user.js
lines 75-79): keep exactly the entries whose key is allow-listed. -/
def filterAllowedPrefs (l : List (String × String)) : List (String × String) :=
  l.filter (fun p => allowedPreferences.contains p.1)

/-- The JS object spread over req.user.preferences and the valid updates
(src/routes/user.js line 82). Represented with every overridden or new
key taken from b; the key-to-value mapping agrees with the JS spread,
only the key order of overridden keys differs. -/
def objMerge (a b : List (String × String)) : List (String × String) :=
  a.filter (fun p => (b.find? (fun q => q.1 == p.1)).isNone) ++ b

/-- The updates object the handler accumulates: a key is present exactly
when the corresponding branch stored it. -/
structure ProfileUpdates where
  firstName : Option String := none
  lastName : Option String := none
  preferences : Option (List (String × String)) := none
  deriving DecidableEq, Repr

/-- Object.keys(updates).length === 0 (src/routes/user.js line 86). -/
def ProfileUpdates.isEmpty (u : ProfileUpdates) : Bool :=
  u.firstName.isNone && u.lastName.isNone && u.preferences.isNone

/-- Modelled from the spec: User.findByIdAndUpdate with new:true (the
User model is not under src/; the document store contract of section 6
updates the named fields of the document and a fetch returns the updated
document). Returns null when no document has the id. -/
def findByIdAndUpdate (db : List MUser) (id : String) (ups : ProfileUpdates) :
    List MUser × Option MUser :=
  match db.find? (fun u => u.id == id) with
  | none => (db, none)
  | some u =>
    let u2 := { u with
      firstName := ups.firstName.getD u.firstName,
      lastName := ups.lastName.getD u.lastName,
      preferences := ups.preferences.getD u.preferences }
    (db.map (fun v => if v.id == id then u2 else v), some u2)

/-- Mirrors, on the request body alone, the condition under which the
handler accumulates no update at all: both names absent and the
preferences object absent or left empty by the allow-list filter. -/
def noValidUpdates (body : UpdateBody) : Bool :=
  body.firstName.isNone && body.lastName.isNone &&
  (match body.preferences with
   | none => true
   | some l => (filterAllowedPrefs l).isEmpty)

/-- PUT /profile (src/routes/user.js lines 45-140). A present but blank
(after trim) name is a 400; present names are stored trimmed; a present
preferences object is filtered to the allow-list and, when anything
survives, merged over req.user.preferences; an empty updates object is a
400; otherwise findByIdAndUpdate applies the updates (a null return
would crash reading updatedUser fields — the catch answers 500). -/
def updateProfile (db : List MUser) (user : MUser) (body : UpdateBody) :
    List MUser × Response :=
  let fnStep : Except Response (Option String) :=
    match body.firstName with
    | none => .ok none
    | some f =>
      if jsTrim f == "" then .error ⟨400, false, "First name cannot be empty"⟩
      else .ok (some (jsTrim f))
  match fnStep with
  | .error r => (db, r)
  | .ok fnUp =>
    let lnStep : Except Response (Option String) :=
      match body.lastName with
      | none => .ok none
      | some l =>
        if jsTrim l == "" then .error ⟨400, false, "Last name cannot be empty"⟩
        else .ok (some (jsTrim l))
    match lnStep with
    | .error r => (db, r)
    | .ok lnUp =>
      let prefUp : Option (List (String × String)) :=
        match body.preferences with
        | none => none
        | some l =>
          let valid := filterAllowedPrefs l
          if valid.length > 0 then some (objMerge user.preferences valid) else none
      let ups : ProfileUpdates := ⟨fnUp, lnUp, prefUp⟩
      if ups.isEmpty then (db, ⟨400, false, "No valid updates provided"⟩)
      else
        match findByIdAndUpdate db user.id ups with
        | (db2, some _) => (db2, ⟨200, true, "Profile updated successfully"⟩)
        | (db2, none) => (db2, ⟨500, false, "Failed to update profile"⟩)

/-! ## Concrete fixtures used by the gate theorems -/

/-- A profile document with a given role and subscription. -/
def mkProfile (role : String) (sub : Option Subscription) : ProfileDoc :=
  { email := "x@example.com", firstName := "X", lastName := "Y", language := "en",
    prefTheme := "dark", prefNotifEmail := true, prefNotifUpdates := true,
    role := role, emailVerified := true, subscription := sub }

/-- A merged req.user with a given role and subscription. -/
def mkMerged (role : String) (sub : Option Subscription) : MergedUser :=
  { uid := "u1", email := "x@example.com", emailVerified := true,
    profile := some (mkProfile role sub) }

/-! ## C1 — the RequireActiveSubscription gate -/

/-- C1 counterexample: the claim says a premium subscription with a null
(absent) end-date is allowed by requirePremium; on the code,
subscription.endDate is falsy, so this authenticated premium profile with
endDate null is denied with 403 PREMIUM_REQUIRED. -/
theorem C1_null_end_date_denied_counterexample :
    requirePremium (some (mkMerged "premium" (some ⟨"premium", none⟩))) 0 ≠
      GateResult.next ∧
    requirePremium (some (mkMerged "premium" (some ⟨"premium", none⟩))) 0 =
      GateResult.halt 403 false "Premium subscription required" (some "PREMIUM_REQUIRED") := by
  decide

/-- C1 (amended): requirePremium allows an authenticated profile exactly
when it has a subscription of type premium or enterprise whose end-date
is present and strictly in the future; a null (absent) end-date is
denied, and every denial is the 403 Forbidden response with code
PREMIUM_REQUIRED. -/
theorem C1_requirePremium_characterization :
    (∀ (m : MergedUser) (now : Int),
      requirePremium (some m) now = GateResult.next ↔
        ∃ p s d, m.profile = some p ∧ p.subscription = some s ∧
          (s.type = "premium" ∨ s.type = "enterprise") ∧
          s.endDate = some d ∧ now < d) ∧
    (∀ (m : MergedUser) (now : Int),
      requirePremium (some m) now = GateResult.next ∨
      requirePremium (some m) now =
        GateResult.halt 403 false "Premium subscription required" (some "PREMIUM_REQUIRED")) := by
  constructor
  · intro m now
    cases hp : m.profile with
    | none => simp [requirePremium, hp]
    | some p =>
      cases hs : p.subscription with
      | none => simp [requirePremium, hp, hs]
      | some s =>
        cases hd : s.endDate with
        | none => simp [requirePremium, hp, hs, hd]
        | some d =>
          by_cases h2 : now < d <;>
            simp [requirePremium, hp, hs, hd, h2, Bool.and_eq_true, Bool.or_eq_true,
              beq_iff_eq] <;> tauto
  · intro m now
    unfold requirePremium
    cases m.profile <;> simp

/-! ## C7 — the RequireRole gate -/

/-- C7: requireRole is a pure membership test — an authenticated profile
passes exactly when its role is a member of the allowed list, every
failure is the 403 Insufficient-permissions response, a premium role is
denied by the admin gate, and an admin role is denied by a premium-only
role gate. -/
theorem C7_requireRole_membership :
    (∀ (roles : List String) (m : MergedUser),
      requireRole roles (some m) = GateResult.next ↔
        ∃ p, m.profile = some p ∧ p.role ∈ roles) ∧
    (∀ (roles : List String) (m : MergedUser),
      requireRole roles (some m) = GateResult.next ∨
      requireRole roles (some m) =
        GateResult.halt 403 false "Insufficient permissions" none) ∧
    requireRole ["admin"] (some (mkMerged "premium" none)) =
      GateResult.halt 403 false "Insufficient permissions" none ∧
    requireRole ["premium"] (some (mkMerged "admin" none)) =
      GateResult.halt 403 false "Insufficient permissions" none := by
  refine ⟨?_, ?_, by decide, by decide⟩
  · intro roles m
    unfold requireRole
    dsimp only
    split <;> rename_i h
    · simp only [List.any_eq_true, beq_iff_eq, Option.map_eq_some'] at h
      obtain ⟨r, hr, p, hp, hrole⟩ := h
      exact iff_of_true rfl ⟨p, hp, hrole ▸ hr⟩
    · simp only [List.any_eq_true, beq_iff_eq, Option.map_eq_some'] at h
      push_neg at h
      refine iff_of_false (by simp) ?_
      rintro ⟨p, hp, hrole⟩
      exact h p.role hrole p hp rfl
  · intro roles m
    unfold requireRole
    dsimp only
    split
    · exact Or.inl rfl
    · exact Or.inr rfl

/-! ## C9 — optionalAuth never rejects -/

/-- Holds when no verification can succeed for the given header: either
no bearer token is extracted, or the extracted token is empty, or the
verifier fails on it (malformed, expired or any other error). -/
def allVerifyFail (env : FbEnv) (header : Option String) : Bool :=
  match extractToken header with
  | none => true
  | some t => if t == "" then true else !(env.verify t).isOk

/-- C9: optionalAuth never rejects a request — it always passes control
to the handler — and on every input on which verification cannot succeed
(absent Authorization header, no bearer token, malformed, expired or
otherwise failing token) it attaches no identity: req.user and req.uid
are both null. -/
theorem C9_optionalAuth_never_rejects :
    (∀ (env : FbEnv) (header : Option String),
      (optionalAuth env header).isProceed = true) ∧
    (∀ (env : FbEnv) (header : Option String),
      allVerifyFail env header = true →
      optionalAuth env header = AuthOutcome.proceed none none) := by
  constructor
  · intro env header
    simp only [optionalAuth]
    cases ht : extractToken header with
    | none => rfl
    | some t =>
      by_cases he : t = ""
      · simp [jsFalsy, he, AuthOutcome.isProceed]
      · simp only [jsFalsy]
        rw [if_neg (by simp [he])]
        cases hv : env.verify t with
        | ok uid =>
          dsimp only
          cases hg : getUserById env uid with
          | error e => rfl
          | ok u => rfl
        | expired => rfl
        | invalid => rfl
        | err => rfl
  · intro env header hfail
    simp only [optionalAuth]
    unfold allVerifyFail at hfail
    cases ht : extractToken header with
    | none => rfl
    | some t =>
      rw [ht] at hfail
      by_cases he : t = ""
      · simp [jsFalsy, he]
      · simp [he] at hfail
        simp only [jsFalsy]
        rw [if_neg (by simp [he])]
        cases hv : env.verify t with
        | ok uid => rw [hv] at hfail; simp [VerifyResult.isOk] at hfail
        | expired => rfl
        | invalid => rfl
        | err => rfl

/-- A verifier that reports every token expired, over empty state. -/
def envAllExpired : FbEnv :=
  { verify := fun _ => .expired, st := ⟨[], [], []⟩ }

/-- C9 witness: at a concrete expired bearer token, optionalAuth resolves
to no identity and proceeds. -/
theorem C9_optionalAuth_never_rejects_witness :
    optionalAuth envAllExpired (some "Bearer deadbeef") = AuthOutcome.proceed none none :=
  C9_optionalAuth_never_rejects.2 envAllExpired (some "Bearer deadbeef") (by decide)

/-! ## C3 — authenticateToken on absent tokens and missing profiles -/

/-- The verifier and state for the C3 failing input: the token tok1
decodes to uid u1, which has an auth account but no profile document. -/
def envMissingProfile : FbEnv :=
  { verify := fun t => if t == "tok1" then .ok "u1" else .invalid,
    st := { identities := [⟨"u1", "a@b.example", "pw12345678", true⟩],
            profiles := [], verifDocs := [] } }

/-- C3: an absent Authorization header (and an empty extracted token) is
rejected 401 Access token required, and getUserById never returns a
successful null — so on the concrete failing input, a verified token
whose uid has no profile document, authenticateToken proceeds with the
partial spread object instead of answering 401 User not found: the
UserNotFound branch of the source is unreachable. -/
theorem C3_missing_profile_not_rejected :
    (∀ env : FbEnv, authenticateToken env none =
      AuthOutcome.respond 401 "Access token required") ∧
    (∀ (env : FbEnv) (uid : String), isOkNone (getUserById env uid) = false) ∧
    authenticateToken envMissingProfile (some "Bearer tok1") =
      AuthOutcome.proceed (some ⟨"u1", "a@b.example", true, none⟩) (some "u1") ∧
    authenticateToken envMissingProfile (some "Bearer tok1") ≠
      AuthOutcome.respond 401 "User not found" := by
  refine ⟨fun env => rfl, ?_, by decide, by decide⟩
  intro env uid
  unfold getUserById isOkNone
  cases env.st.identities.find? (fun a => a.uid == uid) <;> simp

/-! ## C2 — a verification token is single-use -/

/-- A list containing two distinct members has at least two elements. -/
theorem two_le_length_of_mem_ne {α : Type} {l : List α} {a b : α}
    (ha : a ∈ l) (hb : b ∈ l) (hne : a ≠ b) : 2 ≤ l.length := by
  obtain ⟨s1, s2, rfl⟩ := List.append_of_mem ha
  rcases List.mem_append.mp hb with h | h
  · have := List.length_pos_of_mem h
    simp only [List.length_append, List.length_cons]
    omega
  · rcases List.mem_cons.mp h with h | h
    · exact absurd h.symm hne
    · have := List.length_pos_of_mem h
      simp only [List.length_append, List.length_cons]
      omega

/-- C2: a verification token accepted by a first VerifyEmail call is
single-use. If at most one stored user carries the token (tokens are
high-entropy and unique) and the first call succeeds, then the first call
left a user verified with the token cleared, and a second call with the
same token — at any later or even earlier clock, in particular before
the 24h expiry — answers 400 Invalid or expired verification token. -/
theorem C2_verification_token_single_use
    (db : List MUser) (now now2 : Int) (t : String)
    (huniq : (db.filter (fun u => u.emailVerificationToken == some t)).length ≤ 1)
    (hfirst : (verifyEmail db now (some t)).2.success = true) :
    (verifyEmail (verifyEmail db now (some t)).1 now2 (some t)).2 =
      ⟨400, false, "Invalid or expired verification token"⟩ ∧
    ∃ v, v ∈ (verifyEmail db now (some t)).1 ∧
      v.isEmailVerified = true ∧ v.emailVerificationToken = none := by
  by_cases ht : t = ""
  · exfalso
    subst ht
    simp [verifyEmail, jsFalsy] at hfirst
  · have hjf : jsFalsy (some t) = false := by simp [jsFalsy, ht]
    have h1 : ∃ u, findByVerificationToken db now t = some u := by
      cases hf : findByVerificationToken db now t with
      | none => exfalso; simp [verifyEmail, hjf, hf] at hfirst
      | some u => exact ⟨u, rfl⟩
    obtain ⟨u, hf⟩ := h1
    have hpred := List.find?_some hf
    have humem := List.mem_of_find?_eq_some hf
    have hutok : u.emailVerificationToken = some t := by
      simp only [Bool.and_eq_true, beq_iff_eq] at hpred
      exact hpred.1
    have hresult : verifyEmail db now (some t) =
        (saveUser db { u with isEmailVerified := true, emailVerificationToken := none,
                              emailVerificationExpires := none },
         ⟨200, true, "Email verified successfully"⟩) := by
      simp [verifyEmail, hjf, hf]
    rw [hresult]
    have hnone : findByVerificationToken
        (saveUser db { u with isEmailVerified := true, emailVerificationToken := none,
                              emailVerificationExpires := none }) now2 t = none := by
      unfold findByVerificationToken
      rw [List.find?_eq_none]
      intro v hv
      unfold saveUser at hv
      rw [List.mem_map] at hv
      obtain ⟨w, hw, rfl⟩ := hv
      by_cases hid : w.id = u.id
      · simp [hid]
      · rw [if_neg (by simp [hid])]
        intro hcontra
        have hwtok : w.emailVerificationToken = some t := by
          simp only [Bool.and_eq_true, beq_iff_eq] at hcontra
          exact hcontra.1
        have hwin : w ∈ db.filter (fun x => x.emailVerificationToken == some t) :=
          List.mem_filter.mpr ⟨hw, by simp [hwtok]⟩
        have huin : u ∈ db.filter (fun x => x.emailVerificationToken == some t) :=
          List.mem_filter.mpr ⟨humem, by simp [hutok]⟩
        have hne : w ≠ u := fun heq => hid (by rw [heq])
        have := two_le_length_of_mem_ne hwin huin hne
        omega
    constructor
    · simp [verifyEmail, hjf, hnone]
    · refine ⟨{ u with isEmailVerified := true, emailVerificationToken := none,
                       emailVerificationExpires := none }, ?_, rfl, rfl⟩
      unfold saveUser
      exact List.mem_map.mpr ⟨u, humem, by simp⟩

/-- One stored user holding the verification token tok, unexpired. -/
def dbVerifyOne : List MUser :=
  [{ id := "m1", email := "a@b.example", password := "pw12345678",
     firstName := "A", lastName := "B", role := "user", isEmailVerified := false,
     emailVerificationToken := some "tok", emailVerificationExpires := some 100,
     passwordResetToken := none, passwordResetExpires := none,
     preferences := [("theme", "dark")], subscriptionType := "free",
     subscriptionEndDate := none }]

/-- C2 witness: with a single stored user holding token tok expiring at
100, a first call at time 0 succeeds and a second call at time 10 —
well before the expiry — answers the invalid-token response. -/
theorem C2_verification_token_single_use_witness :
    (verifyEmail (verifyEmail dbVerifyOne 0 (some "tok")).1 10 (some "tok")).2 =
      ⟨400, false, "Invalid or expired verification token"⟩ ∧
    ∃ v, v ∈ (verifyEmail dbVerifyOne 0 (some "tok")).1 ∧
      v.isEmailVerified = true ∧ v.emailVerificationToken = none :=
  C2_verification_token_single_use dbVerifyOne 0 10 "tok" (by decide) (by decide)

/-! ## C5 — a short new password consumes no state -/

/-- One stored user holding the reset token rt, unexpired. -/
def dbResetOne : List MUser :=
  [{ id := "m2", email := "c@d.example", password := "oldpassword",
     firstName := "C", lastName := "D", role := "user", isEmailVerified := true,
     emailVerificationToken := none, emailVerificationExpires := none,
     passwordResetToken := some "rt", passwordResetExpires := some 100,
     preferences := [], subscriptionType := "free",
     subscriptionEndDate := none }]

/-- C5 counterexample: the empty string is a new password of length less
than 8, yet the handler answers the required-fields message, not the
claimed Password-must-be-at-least-8-characters-long message, because the
falsy-field check at src/routes/auth.js line 366 fires first. -/
theorem C5_empty_password_counterexample :
    "".length < 8 ∧
    (resetPassword dbResetOne 0 (some "rt") (some "")).2 =
      ⟨400, false, "Reset token and new password are required"⟩ ∧
    (resetPassword dbResetOne 0 (some "rt") (some "")).2.message ≠
      "Password must be at least 8 characters long" := by
  decide

/-- C5 (amended): for every ResetPassword request with a non-empty token
and a non-empty new password of length less than 8, the handler answers
400 Password must be at least 8 characters long and returns the store
unchanged — the reset token is neither looked up nor invalidated — and a
subsequent attempt with an acceptable (length at least 8) password on the
same still-valid token succeeds. -/
theorem C5_short_password_no_consumption
    (db : List MUser) (now : Int) (t p : String)
    (ht : t ≠ "") (hp : p ≠ "") (hlen : p.length < 8) :
    resetPassword db now (some t) (some p) =
      (db, ⟨400, false, "Password must be at least 8 characters long"⟩) ∧
    (∀ p2 : String, 8 ≤ p2.length → (findByResetToken db now t).isSome →
      (resetPassword db now (some t) (some p2)).2 =
        ⟨200, true, "Password reset successfully"⟩) := by
  have hjt : jsFalsy (some t) = false := by simp [jsFalsy, ht]
  have hjp : jsFalsy (some p) = false := by simp [jsFalsy, hp]
  constructor
  · simp [resetPassword, hjt, hjp, hlen]
  · intro p2 hlen2 hsome
    have hp2 : p2 ≠ "" := by
      intro h
      subst h
      revert hlen2
      decide
    have hjp2 : jsFalsy (some p2) = false := by simp [jsFalsy, hp2]
    obtain ⟨u, hu⟩ := Option.isSome_iff_exists.mp hsome
    simp [resetPassword, hjt, hjp2, hu, Nat.not_lt.mpr hlen2]

/-- C5 witness: on the concrete store with valid token rt, the short
password answers the length message leaving the store unchanged, and a
long-enough password then succeeds. -/
theorem C5_short_password_no_consumption_witness :
    resetPassword dbResetOne 0 (some "rt") (some "short") =
      (dbResetOne, ⟨400, false, "Password must be at least 8 characters long"⟩) ∧
    (resetPassword dbResetOne 0 (some "rt") (some "longenough")).2 =
      ⟨200, true, "Password reset successfully"⟩ :=
  ⟨(C5_short_password_no_consumption dbResetOne 0 "rt" "short"
      (by decide) (by decide) (by decide)).1,
   (C5_short_password_no_consumption dbResetOne 0 "rt" "short"
      (by decide) (by decide) (by decide)).2 "longenough" (by decide) (by decide)⟩

/-! ## C6 — forgot-password does not reveal account existence -/

/-- C6: for a non-existing e-mail and for an existing e-mail whose reset
e-mail sends successfully, ForgotPassword answers the character-for-
character identical success response, and it is a success=true response
— so the response does not reveal whether the account exists. -/
theorem C6_forgot_password_enumeration_resistant
    (db : List MUser) (now : Int) (tok : String) (e1 e2 : String)
    (h1 : e1 ≠ "") (h2 : e2 ≠ "")
    (habsent : findOneByEmail db (jsToLower e1) = none)
    (hpresent : (findOneByEmail db (jsToLower e2)).isSome) :
    (forgotPassword db now tok (some e1) true).2 =
      (forgotPassword db now tok (some e2) true).2 ∧
    (forgotPassword db now tok (some e1) true).2 =
      ⟨200, true,
       "If an account with that email exists, a password reset link has been sent"⟩ := by
  have hj1 : jsFalsy (some e1) = false := by simp [jsFalsy, h1]
  have hj2 : jsFalsy (some e2) = false := by simp [jsFalsy, h2]
  obtain ⟨u, hu⟩ := Option.isSome_iff_exists.mp hpresent
  constructor
  · simp [forgotPassword, hj1, hj2, habsent, hu]
  · simp [forgotPassword, hj1, habsent]

/-- C6 witness: with one stored account c@d.example, an unknown e-mail
and the known e-mail (in mixed case) receive the identical success
response. -/
theorem C6_forgot_password_enumeration_resistant_witness :
    (forgotPassword dbResetOne 0 "fresh" (some "nobody@d.example") true).2 =
      (forgotPassword dbResetOne 0 "fresh" (some "C@D.Example") true).2 ∧
    (forgotPassword dbResetOne 0 "fresh" (some "nobody@d.example") true).2 =
      ⟨200, true,
       "If an account with that email exists, a password reset link has been sent"⟩ :=
  C6_forgot_password_enumeration_resistant dbResetOne 0 "fresh"
    "nobody@d.example" "C@D.Example" (by decide) (by decide) (by decide) (by decide)

/-! ## C8 — the sensitive-operation rate limiter -/

/-- First call for an unseen key: window opens, counted, allowed when
the budget admits one call. -/
theorem limiterStep_empty (max : Nat) (W now : Int) (key : String) :
    limiterStep max W [] key now = ([(key, ⟨now, 1⟩)], decide (1 ≤ max)) := by
  simp [limiterStep]

/-- A call inside the live window bumps the counter and is allowed
exactly when the bumped counter is within the budget. -/
theorem limiterStep_found (max : Nat) (W s now : Int) (c : Nat) (key : String)
    (hin : ¬ s + W ≤ now) :
    limiterStep max W [(key, ⟨s, c⟩)] key now =
      ([(key, ⟨s, c + 1⟩)], decide (c + 1 ≤ max)) := by
  simp [limiterStep, hin]

/-- A call after the window elapsed resets the window and the counter. -/
theorem limiterStep_reset (max : Nat) (W s now : Int) (c : Nat) (key : String)
    (hout : s + W ≤ now) :
    limiterStep max W [(key, ⟨s, c⟩)] key now =
      ([(key, ⟨now, 1⟩)], decide (1 ≤ max)) := by
  simp [limiterStep, hout]

/-- C8: with the register/login budget maxAttempts=5, windowMs=900000,
six calls for the same key inside one window starting fresh are allowed
five times and denied on the sixth — the model counts every call, with
no input for the guarded operation's outcome — and a seventh call after
the window has elapsed is allowed again; the limiter key is the client
address concatenated with the identity id when one is known. -/
theorem C8_rate_limiter_budget_and_window
    (t1 t2 t3 t4 t5 t6 t7 : Int) (key ip uid : String)
    (h12 : t1 ≤ t2) (h23 : t2 ≤ t3) (h34 : t3 ≤ t4) (h45 : t4 ≤ t5) (h56 : t5 ≤ t6)
    (hwin : t6 < t1 + loginLimiterWindowMs) (hafter : t1 + loginLimiterWindowMs ≤ t7)
    (huid : uid ≠ "") :
    (runLimiter loginLimiterMax loginLimiterWindowMs key []
        [t1, t2, t3, t4, t5, t6, t7]).2 =
      [true, true, true, true, true, false, true] ∧
    rateLimitKey ip (some uid) none = ip ++ uid := by
  unfold loginLimiterMax loginLimiterWindowMs at *
  constructor
  · have e1 : limiterStep 5 900000 [] key t1 = ([(key, ⟨t1, 1⟩)], true) :=
      limiterStep_empty 5 900000 t1 key
    have e2 : limiterStep 5 900000 [(key, ⟨t1, 1⟩)] key t2 = ([(key, ⟨t1, 2⟩)], true) := by
      rw [limiterStep_found 5 900000 t1 t2 1 key (by omega)]
      simp
    have e3 : limiterStep 5 900000 [(key, ⟨t1, 2⟩)] key t3 = ([(key, ⟨t1, 3⟩)], true) := by
      rw [limiterStep_found 5 900000 t1 t3 2 key (by omega)]
      simp
    have e4 : limiterStep 5 900000 [(key, ⟨t1, 3⟩)] key t4 = ([(key, ⟨t1, 4⟩)], true) := by
      rw [limiterStep_found 5 900000 t1 t4 3 key (by omega)]
      simp
    have e5 : limiterStep 5 900000 [(key, ⟨t1, 4⟩)] key t5 = ([(key, ⟨t1, 5⟩)], true) := by
      rw [limiterStep_found 5 900000 t1 t5 4 key (by omega)]
      simp
    have e6 : limiterStep 5 900000 [(key, ⟨t1, 5⟩)] key t6 = ([(key, ⟨t1, 6⟩)], false) := by
      rw [limiterStep_found 5 900000 t1 t6 5 key (by omega)]
      simp
    have e7 : limiterStep 5 900000 [(key, ⟨t1, 6⟩)] key t7 = ([(key, ⟨t7, 1⟩)], true) := by
      rw [limiterStep_reset 5 900000 t1 t7 6 key (by omega)]
      simp
    simp only [runLimiter, e1, e2, e3, e4, e5, e6, e7]
  · simp [rateLimitKey, huid]

/-- C8 witness: at the concrete call times 0..5 within one window and a
call at 900000 after it, the verdicts are five allows, a deny, an allow,
and the key for address plus identity u1 concatenates them. -/
theorem C8_rate_limiter_budget_and_window_witness :
    (runLimiter loginLimiterMax loginLimiterWindowMs "1.2.3.4u1" []
        [0, 1, 2, 3, 4, 5, 900000]).2 =
      [true, true, true, true, true, false, true] ∧
    rateLimitKey "1.2.3.4" (some "u1") none = "1.2.3.4" ++ "u1" :=
  C8_rate_limiter_budget_and_window 0 1 2 3 4 5 900000 "1.2.3.4u1" "1.2.3.4" "u1"
    (by decide) (by decide) (by decide) (by decide) (by decide)
    (by decide) (by decide) (by decide)

/-! ## C4 — registration response -/

/-- The registration request of the spec's scenario. -/
def aliceBody : RegisterBody :=
  ⟨some "Alice@Example.com", some "Passw0rd!", some "Alice", some "A", none⟩

/-- C4: on a valid registration over an empty store the handler answers
500 Registration failed (the success block throws on the undefined
identifiers token and refreshToken), never success=true — although the
account itself was created with role user and emailVerified false under
the lowercased e-mail, as the spec intends the response to report. -/
theorem C4_register_responds_500_on_valid_input :
    (register ⟨[], [], []⟩ 0 "uid1" "vtok1" aliceBody).2 =
      ⟨500, false, "Registration failed. Please try again."⟩ ∧
    (register ⟨[], [], []⟩ 0 "uid1" "vtok1" aliceBody).2.success = false ∧
    ((register ⟨[], [], []⟩ 0 "uid1" "vtok1" aliceBody).1.profiles.find?
        (fun p => p.1 == "uid1")).map
        (fun p => (p.2.role, p.2.emailVerified, p.2.email)) =
      some ("user", false, "alice@example.com") ∧
    ((register ⟨[], [], []⟩ 0 "uid1" "vtok1" aliceBody).1.verifDocs.find?
        (fun p => p.1 == "uid1")).map (fun p => (p.2.token, p.2.expiresAt)) =
      some ("vtok1", 86400000) := by
  decide

/-! ## C10 — the profile-update frame and preference allow-list -/

/-- Association-list lookup of a preference key, the first entry whose
key equals k (the JS object access). -/
def prefLookup (k : String) (l : List (String × String)) : Option (String × String) :=
  l.find? (fun q => q.1 == k)

/-- Every field of a user document except the three PUT /profile can
write: identifier, e-mail, password, role, verified flag, subscription,
and the verification/reset token state. -/
def frameFields (v : MUser) :
    String × String × String × String × Bool × String × Option Int ×
    Option String × Option Int × Option String × Option Int :=
  (v.id, v.email, v.password, v.role, v.isEmailVerified,
   v.subscriptionType, v.subscriptionEndDate,
   v.emailVerificationToken, v.emailVerificationExpires,
   v.passwordResetToken, v.passwordResetExpires)

/-- find? over an append whose right part has no match scans the left
part only. -/
theorem find?_append_right_none {α : Type} (l1 l2 : List α) (p : α → Bool)
    (h2 : l2.find? p = none) : (l1 ++ l2).find? p = l1.find? p := by
  induction l1 with
  | nil => simpa using h2
  | cons a l ih =>
    by_cases hp : p a = true
    · rw [List.cons_append, List.find?_cons_of_pos _ hp, List.find?_cons_of_pos _ hp]
    · rw [List.cons_append, List.find?_cons_of_neg _ (by simp [hp]),
        List.find?_cons_of_neg _ (by simp [hp])]
      exact ih

/-- Filtering by a predicate that holds on every match of the search
predicate does not change the first match. -/
theorem find?_filter_of_imp {α : Type} (l : List α) (p g : α → Bool)
    (h : ∀ x, p x = true → g x = true) :
    (l.filter g).find? p = l.find? p := by
  induction l with
  | nil => rfl
  | cons a l ih =>
    by_cases hg : g a = true
    · rw [List.filter_cons_of_pos hg]
      by_cases hp : p a = true
      · rw [List.find?_cons_of_pos _ hp, List.find?_cons_of_pos _ hp]
      · rw [List.find?_cons_of_neg _ (by simp [hp]), List.find?_cons_of_neg _ (by simp [hp])]
        exact ih
    · rw [List.filter_cons_of_neg (by simp [hg])]
      have hp : ¬ p a = true := fun hpa => hg (h a hpa)
      rw [List.find?_cons_of_neg _ (by simp [hp])]
      exact ih

/-- The allow-list filter retains no entry with a non-allow-listed key. -/
theorem filterAllowedPrefs_lookup_none (l : List (String × String)) (k : String)
    (hk : allowedPreferences.contains k = false) :
    (filterAllowedPrefs l).find? (fun q => q.1 == k) = none := by
  unfold filterAllowedPrefs
  rw [List.find?_eq_none]
  intro q hq
  rw [List.mem_filter] at hq
  intro hqk
  rw [beq_iff_eq] at hqk
  rw [hqk] at hq
  rw [hq.2] at hk
  exact Bool.true_eq_false.mp hk

/-- A key that the overriding object does not carry reads its value from
the base object after the spread. -/
theorem objMerge_lookup_of_right_none (a b : List (String × String)) (k : String)
    (hb : b.find? (fun q => q.1 == k) = none) :
    (objMerge a b).find? (fun q => q.1 == k) = a.find? (fun q => q.1 == k) := by
  unfold objMerge
  rw [find?_append_right_none _ _ _ hb]
  apply find?_filter_of_imp
  intro x hx
  rw [beq_iff_eq] at hx
  have : (fun q : String × String => q.1 == x.1) = (fun q : String × String => q.1 == k) := by
    funext q
    rw [hx]
  rw [this, hb]
  rfl

/-- Replacing the documents bearing the user's id by an update that
preserves a projection preserves that projection across the store,
provided the id identifies the user uniquely. -/
theorem map_proj_of_update {α : Type} (g : MUser → α) (db : List MUser) (user u2 : MUser)
    (huniq : ∀ v ∈ db, v.id = user.id → v = user)
    (hg : g u2 = g user) :
    (db.map (fun v => if v.id == user.id then u2 else v)).map g = db.map g := by
  rw [List.map_map]
  apply List.map_congr_left
  intro v hv
  by_cases hid : v.id = user.id
  · have hveq := huniq v hv hid
    subst hveq
    simp [Function.comp, hg]
  · simp [Function.comp, hid]

/-- findByIdAndUpdate preserves every frame field of every stored
document. -/
theorem findByIdAndUpdate_fst_frame (db : List MUser) (user : MUser) (ups : ProfileUpdates)
    (hfind : db.find? (fun v => v.id == user.id) = some user)
    (huniq : ∀ v ∈ db, v.id = user.id → v = user) :
    (findByIdAndUpdate db user.id ups).1.map frameFields = db.map frameFields := by
  unfold findByIdAndUpdate
  rw [hfind]
  dsimp only
  exact map_proj_of_update frameFields db user _ huniq rfl

/-- findByIdAndUpdate preserves a preference-key lookup across the store
whenever the applied update itself preserves it on the user. -/
theorem findByIdAndUpdate_fst_pref (db : List MUser) (user : MUser) (ups : ProfileUpdates)
    (k : String)
    (hfind : db.find? (fun v => v.id == user.id) = some user)
    (huniq : ∀ v ∈ db, v.id = user.id → v = user)
    (hpref : prefLookup k (ups.preferences.getD user.preferences) =
      prefLookup k user.preferences) :
    (findByIdAndUpdate db user.id ups).1.map (fun v => prefLookup k v.preferences) =
      db.map (fun v => prefLookup k v.preferences) := by
  unfold findByIdAndUpdate
  rw [hfind]
  dsimp only
  exact map_proj_of_update (fun v => prefLookup k v.preferences) db user _ huniq hpref

/-- PUT /profile never changes any frame field (e-mail, password, role,
verified flag, subscription, token state) of any stored document. -/
theorem updateProfile_frame (db : List MUser) (user : MUser) (body : UpdateBody)
    (hfind : db.find? (fun v => v.id == user.id) = some user)
    (huniq : ∀ v ∈ db, v.id = user.id → v = user) :
    (updateProfile db user body).1.map frameFields = db.map frameFields := by
  simp only [updateProfile]
  split
  · rfl
  · split
    · rfl
    · split
      · rfl
      · split <;> rename_i heq
        · have hdb2 := congrArg Prod.fst heq
          dsimp only at hdb2 ⊢
          rw [← hdb2]
          exact findByIdAndUpdate_fst_frame db user _ hfind huniq
        · have hdb2 := congrArg Prod.fst heq
          dsimp only at hdb2 ⊢
          rw [← hdb2]
          exact findByIdAndUpdate_fst_frame db user _ hfind huniq

/-- PUT /profile never changes the value stored under a preference key
outside the allow-list, on any stored document. -/
theorem updateProfile_pref (db : List MUser) (user : MUser) (body : UpdateBody)
    (k : String)
    (hfind : db.find? (fun v => v.id == user.id) = some user)
    (huniq : ∀ v ∈ db, v.id = user.id → v = user)
    (hk : allowedPreferences.contains k = false) :
    (updateProfile db user body).1.map (fun v => prefLookup k v.preferences) =
      db.map (fun v => prefLookup k v.preferences) := by
  have hpref : ∀ l : List (String × String),
      prefLookup k (objMerge user.preferences (filterAllowedPrefs l)) =
        prefLookup k user.preferences := fun l =>
    objMerge_lookup_of_right_none user.preferences (filterAllowedPrefs l) k
      (filterAllowedPrefs_lookup_none l k hk)
  simp only [updateProfile]
  split
  · rfl
  · split
    · rfl
    · split
      · rfl
      · split <;> rename_i heq
        · have hdb2 := congrArg Prod.fst heq
          dsimp only at hdb2 ⊢
          rw [← hdb2]
          apply findByIdAndUpdate_fst_pref db user _ k hfind huniq
          cases hpr : body.preferences with
          | none => rfl
          | some l =>
            dsimp only
            split
            · exact hpref l
            · rfl
        · have hdb2 := congrArg Prod.fst heq
          dsimp only at hdb2 ⊢
          rw [← hdb2]
          apply findByIdAndUpdate_fst_pref db user _ k hfind huniq
          cases hpr : body.preferences with
          | none => rfl
          | some l =>
            dsimp only
            split
            · exact hpref l
            · rfl

/-- When the body leaves nothing to update — no names and no
allow-listed preference key — PUT /profile answers 400 No valid updates
provided and the store is untouched. -/
theorem updateProfile_no_valid (db : List MUser) (user : MUser) (body : UpdateBody)
    (h : noValidUpdates body = true) :
    updateProfile db user body = (db, ⟨400, false, "No valid updates provided"⟩) := by
  unfold noValidUpdates at h
  simp only [Bool.and_eq_true, Option.isNone_iff_eq_none] at h
  obtain ⟨⟨hfn, hln⟩, hpr⟩ := h
  simp only [updateProfile, hfn, hln]
  cases hp2 : body.preferences with
  | none => rfl
  | some l =>
    rw [hp2] at hpr
    dsimp only at hpr
    have hempty : ¬ (filterAllowedPrefs l).length > 0 := by
      rw [List.isEmpty_iff] at hpr
      rw [hpr]
      simp
    dsimp only
    rw [if_neg hempty]
    rfl

/-- C10: for every authenticated profile update, every frame field
(e-mail, password, role, verified flag, subscription, token state) of
every stored document is unchanged; every preference key outside the
allow-list language/theme/notifications reads the same value before and
after (non-allow-listed incoming keys are silently dropped); and when no
valid update survives the filtering the handler answers 400 No valid
updates provided with the store untouched. -/
theorem C10_update_profile_frame_and_allow_list
    (db : List MUser) (user : MUser) (body : UpdateBody)
    (hfind : db.find? (fun v => v.id == user.id) = some user)
    (huniq : ∀ v ∈ db, v.id = user.id → v = user) :
    (updateProfile db user body).1.map frameFields = db.map frameFields ∧
    (∀ k : String, allowedPreferences.contains k = false →
      (updateProfile db user body).1.map (fun v => prefLookup k v.preferences) =
        db.map (fun v => prefLookup k v.preferences)) ∧
    (noValidUpdates body = true →
      updateProfile db user body = (db, ⟨400, false, "No valid updates provided"⟩)) :=
  ⟨updateProfile_frame db user body hfind huniq,
   fun k hk => updateProfile_pref db user body k hfind huniq hk,
   fun h => updateProfile_no_valid db user body h⟩

/-- The stored document behind the C10 witness. -/
def mUserZoe : MUser :=
  { id := "m3", email := "z@w.example", password := "zoesecret1",
    firstName := "Zo", lastName := "E", role := "premium", isEmailVerified := true,
    emailVerificationToken := none, emailVerificationExpires := none,
    passwordResetToken := none, passwordResetExpires := none,
    preferences := [("theme", "dark"), ("evil", "old")],
    subscriptionType := "premium", subscriptionEndDate := some 99 }

/-- C10 witness: on a concrete store, an update carrying a name, an
allow-listed theme and a non-allow-listed key evil changes neither the
frame fields nor the stored value of evil; and a body carrying only
non-allow-listed preference keys answers 400 with the store unchanged. -/
theorem C10_update_profile_frame_and_allow_list_witness :
    (updateProfile [mUserZoe] mUserZoe
        ⟨some " Zoe ", none, some [("theme", "light"), ("evil", "new")]⟩).1.map frameFields =
      [mUserZoe].map frameFields ∧
    (updateProfile [mUserZoe] mUserZoe
        ⟨some " Zoe ", none, some [("theme", "light"), ("evil", "new")]⟩).1.map
        (fun v => prefLookup "evil" v.preferences) =
      [mUserZoe].map (fun v => prefLookup "evil" v.preferences) ∧
    updateProfile [mUserZoe] mUserZoe ⟨none, none, some [("evil", "new")]⟩ =
      ([mUserZoe], ⟨400, false, "No valid updates provided"⟩) :=
  ⟨(C10_update_profile_frame_and_allow_list [mUserZoe] mUserZoe
      ⟨some " Zoe ", none, some [("theme", "light"), ("evil", "new")]⟩
      (by decide) (by decide)).1,
   (C10_update_profile_frame_and_allow_list [mUserZoe] mUserZoe
      ⟨some " Zoe ", none, some [("theme", "light"), ("evil", "new")]⟩
      (by decide) (by decide)).2.1 "evil" (by decide),
   (C10_update_profile_frame_and_allow_list [mUserZoe] mUserZoe
      ⟨none, none, some [("evil", "new")]⟩
      (by decide) (by decide)).2.2 (by decide)⟩

end Wetsite
